import Mathlib

set_option linter.unusedVariables false

/-!
Shallow embedding of the desk-control core (`src/desk/protocol.rs`,
`src/desk/bluetooth.rs`).

Machine integers are modelled as `Nat`: `u8` values are naturals below 256,
`u16` values naturals below 65536, with explicit `% 2^w` exactly where the
source's wrapping arithmetic matters.  Byte strings are `List Nat`.
Fallible operations return `Except`.  The asynchronous BLE environment
(scan results, link outcomes, characteristic reads/writes, the wall clock)
is passed in explicitly as data, so every function is pure and executable.
-/

/-! ## Protocol codec (`src/desk/protocol.rs`) -/

/-- Main control service UUID (`CONTROL_SERVICE_UUID`). -/
def CONTROL_SERVICE_UUID : Nat := 0x99fa0001338a10248a49009c0215f78a

/-- Characteristic for reading current height (`HEIGHT_CHARACTERISTIC_UUID`). -/
def HEIGHT_CHARACTERISTIC_UUID : Nat := 0x99fa0021338a10248a49009c0215f78a

/-- Characteristic for sending movement commands (`CONTROL_CHARACTERISTIC_UUID`). -/
def CONTROL_CHARACTERISTIC_UUID : Nat := 0x99fa0002338a10248a49009c0215f78a

/-- Movement commands (`MovementCommand` in `protocol.rs`).  The
`MoveToHeight` payload is a `u16` in 0.1 mm units, modelled as a `Nat`
below 65536. -/
inductive MovementCommand where
  | Stop : MovementCommand
  | Up : MovementCommand
  | Down : MovementCommand
  | MoveToHeight : Nat → MovementCommand
deriving DecidableEq, Repr

/-- `u16::from_le_bytes([b0, b1])` for `u8` inputs (`b0, b1 < 256`). -/
def u16_from_le_bytes (b0 b1 : Nat) : Nat := b0 + 256 * b1

/-- `u16::to_le_bytes` low byte. -/
def u16_lo (h : Nat) : Nat := h % 256

/-- `u16::to_le_bytes` high byte (for a `u16` value `h < 65536`). -/
def u16_hi (h : Nat) : Nat := h / 256 % 256

/-- `MovementCommand::to_bytes` from `protocol.rs`: `Stop → [0xFF, 0x00]`,
`Up → [0x47, 0x00]`, `Down → [0x46, 0x00]`,
`MoveToHeight(h) → [0x05, low byte of h, high byte of h]`. -/
def MovementCommand.to_bytes : MovementCommand → List Nat
  | .Stop => [0xFF, 0x00]
  | .Up => [0x47, 0x00]
  | .Down => [0x46, 0x00]
  | .MoveToHeight height => [0x05, u16_lo height, u16_hi height]

/-- `parse_height` from `protocol.rs`: if at least two bytes are supplied,
the first two are read as a little-endian `u16`; otherwise `None`. -/
def parse_height (data : List Nat) : Option Nat :=
  if 2 ≤ data.length then
    some (u16_from_le_bytes (data.getD 0 0) (data.getD 1 0))
  else
    none

/-- `mm_to_desk_units` from `protocol.rs`: `mm * 10` in `u16` arithmetic
(wrapping modelled by the explicit `% 65536`; no wrap occurs for realistic
desk heights `mm ≤ 6553`). -/
def mm_to_desk_units (mm : Nat) : Nat := mm * 10 % 65536

/-- `desk_units_to_mm` from `protocol.rs`: integer division by 10,
truncating the sub-millimeter remainder. -/
def desk_units_to_mm (units : Nat) : Nat := units / 10

/-! ## Device discovery (`DeskController::scan_for_desks` in `bluetooth.rs`) -/

/-- Case-insensitive substring test on character lists: does `pat` occur as
a contiguous subsequence of `hay`?  (Embeds Rust `str::contains` after
`to_lowercase`; the lowering is applied by the caller.) -/
def containsSeq : List Char → List Char → Bool
  | [], pat => pat.isEmpty
  | c :: t, pat => pat.isPrefixOf (c :: t) || containsSeq t pat

/-- `name.to_lowercase().contains(keyword)` for an already-lowercase
`keyword` (ASCII lowering, which covers the three vendor keywords). -/
def name_contains (name : String) (keyword : String) : Bool :=
  containsSeq (name.data.map Char.toLower) keyword.data

/-- The scan filter condition from `scan_for_desks`: the advertised name
contains "desk", "dpg" or "linak", case-insensitively. -/
def is_desk_name (name : String) : Bool :=
  name_contains name "desk" || name_contains name "dpg" || name_contains name "linak"

/-- Advertised properties of a BLE peripheral (the fields of
`btleplug::PeripheralProperties` the source reads). -/
structure Properties where
  address : String
  local_name : Option String
deriving DecidableEq, Repr

/-- A discovered peripheral.  `props` is the (pure, per-device) outcome of
`peripheral.properties()`: an error, no properties, or some properties. -/
structure Peripheral where
  props : Except Unit (Option Properties)
deriving Repr

/-- The per-peripheral retention condition of the scan loop: properties
resolve, an advertised name is present, and the name matches a vendor
keyword. -/
def deskPred (p : Peripheral) : Bool :=
  match p.props with
  | .ok (some props) =>
    match props.local_name with
    | some name => is_desk_name name
    | none => false
  | .ok none => false
  | .error _ => false

/-- The filtering loop of `scan_for_desks`: walk the observed peripherals
in discovery order, keeping those with a matching advertised name
(`desks.push(peripheral)`). -/
def collectDesks : List Peripheral → List Peripheral
  | [] => []
  | p :: rest =>
    match p.props with
    | .ok (some props) =>
      match props.local_name with
      | some name =>
        if is_desk_name name then p :: collectDesks rest else collectDesks rest
      | none => collectDesks rest
    | .ok none => collectDesks rest
    | .error _ => collectDesks rest

/-- Errors of `scan_for_desks` itself (adapter acquisition). -/
inductive ScanErr where
  | noAdapter : ScanErr
deriving DecidableEq, Repr

/-- `DeskController::scan_for_desks`: with an adapter present, scan for
`timeout_secs` seconds (the window only determines `observed`, which is
passed in explicitly) and return the filtered list; without an adapter,
fail.  An empty filtered list is an `ok` value. -/
def scan_for_desks (hasAdapter : Bool) (timeout_secs : Nat)
    (observed : List Peripheral) : Except ScanErr (List Peripheral) :=
  if hasAdapter then .ok (collectDesks observed) else .error .noAdapter

/-! ## Connection establishment (`DeskController::connect`,
`DeskController::connect_to_peripheral` in `bluetooth.rs`) -/

/-- Error taxonomy of connection establishment, one constructor per
distinct `anyhow!`/`context` failure site in the source. -/
inductive ConnErr where
  | noAdapter : ConnErr
  | noDesksFound : ConnErr
  | deskNotFound : ConnErr
  | checkTimeout : ConnErr
  | checkFail : ConnErr
  | connectTimeout : ConnErr
  | connectTransport : ConnErr
  | discoverTimeout : ConnErr
  | discoverFail : ConnErr
  | missingControl : ConnErr
  | missingHeight : ConnErr
  | retriesExhausted : ConnErr
deriving DecidableEq, Repr

/-- Outcome of the `is_connected()` status check (with its 5 s timeout). -/
inductive CheckOutcome where
  | timeout : CheckOutcome
  | fail : CheckOutcome
  | ok : Bool → CheckOutcome
deriving DecidableEq, Repr

/-- Outcome of `peripheral.connect()` (with its 15 s timeout). -/
inductive LinkOutcome where
  | timeout : LinkOutcome
  | transportErr : LinkOutcome
  | ok : LinkOutcome
deriving DecidableEq, Repr

/-- Outcome of `peripheral.discover_services()` (with its 10 s timeout). -/
inductive DiscOutcome where
  | timeout : DiscOutcome
  | fail : DiscOutcome
  | ok : DiscOutcome
deriving DecidableEq, Repr

/-- The transport's behaviour during one `connect_to_peripheral` call:
status-check outcome, link outcome, service-discovery outcome, and the
UUIDs of the characteristics enumerated afterwards. -/
structure AttemptEnv where
  check : CheckOutcome
  link : LinkOutcome
  discover : DiscOutcome
  chars : List Nat
deriving DecidableEq, Repr

/-- The `DeskController` session struct: the two resolved characteristics,
kept as `Option` exactly as in the source. -/
structure DeskController where
  control_char : Option Nat
  height_char : Option Nat
deriving DecidableEq, Repr

/-- `DeskController::connect_to_peripheral`: check the link status,
establish the link if absent, discover services, resolve the control and
height characteristics by UUID, and fail if either is missing. -/
def connect_to_peripheral (attempt : AttemptEnv) : Except ConnErr DeskController :=
  match attempt.check with
  | .timeout => .error .checkTimeout
  | .fail => .error .checkFail
  | .ok is_connected =>
    let linkStep : Except ConnErr Unit :=
      if !is_connected then
        match attempt.link with
        | .timeout => .error .connectTimeout
        | .transportErr => .error .connectTransport
        | .ok => .ok ()
      else
        .ok ()
    match linkStep with
    | .error e => .error e
    | .ok _ =>
      match attempt.discover with
      | .timeout => .error .discoverTimeout
      | .fail => .error .discoverFail
      | .ok =>
        let control_char := attempt.chars.find? (fun u => u == CONTROL_CHARACTERISTIC_UUID)
        let height_char := attempt.chars.find? (fun u => u == HEIGHT_CHARACTERISTIC_UUID)
        if control_char.isNone then
          .error .missingControl
        else if height_char.isNone then
          .error .missingHeight
        else
          .ok { control_char := control_char, height_char := height_char }

/-- The external world `connect` runs against: adapter presence, the
devices observed during the (single) scan window, and the transport's
behaviour on each successive `connect_to_peripheral` attempt. -/
structure Env where
  hasAdapter : Bool
  observed : List Peripheral
  attempts : Nat → AttemptEnv

/-- Observable outcome of a `connect` run: the result, together with how
many scans and how many connection attempts were performed. -/
structure ConnectTrace where
  result : Except ConnErr DeskController
  scansUsed : Nat
  attemptsUsed : Nat

/-- The address-matching linear search of `connect`: first peripheral
whose resolved properties carry the requested address (peripherals whose
properties fail or are absent are skipped). -/
def find_by_address (addr : String) (desks : List Peripheral) : Option Peripheral :=
  desks.find? (fun p =>
    match p.props with
    | .ok (some props) => props.address == addr
    | .ok none => false
    | .error _ => false)

/-- `max_retries` in `connect`. -/
def max_retries : Nat := 3

/-- The `for attempt in 1..=max_retries` loop of `connect`: try
`connect_to_peripheral`, return on success, carry the last error across
iterations, and surface it once the attempts are exhausted
(`last_error.unwrap_or_else(...)`). -/
def connectLoop (env : Env) : Nat → Nat → Option ConnErr →
    Except ConnErr DeskController × Nat
  | 0, used, lastErr => (.error (lastErr.getD .retriesExhausted), used)
  | remaining + 1, used, lastErr =>
    match connect_to_peripheral (env.attempts used) with
    | .ok controller => (.ok controller, used + 1)
    | .error e => connectLoop env remaining (used + 1) (some e)

/-- `DeskController::connect`: scan once (5 s with a target address, 10 s
without), fail if nothing was found, select the target (by address, or the
first candidate), then retry only `connect_to_peripheral` up to
`max_retries` times without rescanning. -/
def connect (desk_address : Option String) (env : Env) : ConnectTrace :=
  let scan_duration : Nat := if desk_address.isSome then 5 else 10
  match scan_for_desks env.hasAdapter scan_duration env.observed with
  | .error _ => { result := .error .noAdapter, scansUsed := 1, attemptsUsed := 0 }
  | .ok desks =>
    if desks.isEmpty then
      { result := .error .noDesksFound, scansUsed := 1, attemptsUsed := 0 }
    else
      let selected : Option Peripheral :=
        match desk_address with
        | some addr => find_by_address addr desks
        | none => desks.head?
      match selected with
      | none => { result := .error .deskNotFound, scansUsed := 1, attemptsUsed := 0 }
      | some _ =>
        let out := connectLoop env max_retries 0 none
        { result := out.1, scansUsed := 1, attemptsUsed := out.2 }

/-! ## Movement controller (`get_height`, `send_command`,
`move_to_height` in `bluetooth.rs`) -/

/-- Failure modes of `DeskController::get_height`: missing endpoint
(defensive check), BLE read failure, or height-payload parse failure. -/
inductive HeightErr where
  | endpointUnavailable : HeightErr
  | readFail : HeightErr
  | parseFail : HeightErr
deriving DecidableEq, Repr

/-- Failure modes of `DeskController::send_command`: missing endpoint
(defensive check) or BLE write failure. -/
inductive CmdErr where
  | endpointUnavailable : CmdErr
  | writeFail : CmdErr
deriving DecidableEq, Repr

/-- `DeskController::get_height`: require the height characteristic, read
it (`readRes` is the transport's outcome), parse the payload, and convert
wire units to millimeters. -/
def get_height (c : DeskController) (readRes : Except Unit (List Nat)) :
    Except HeightErr Nat :=
  match c.height_char with
  | none => .error .endpointUnavailable
  | some _ =>
    match readRes with
    | .error _ => .error .readFail
    | .ok data =>
      match parse_height data with
      | none => .error .parseFail
      | some height_units => .ok (desk_units_to_mm height_units)

/-- `DeskController::send_command`: require the control characteristic,
encode the command, and write it (`writeRes` is the transport's outcome).
The second component logs every byte string whose write was issued to the
control characteristic. -/
def send_command (c : DeskController) (command : MovementCommand)
    (writeRes : Except Unit Unit) : Except CmdErr Unit × List (List Nat) :=
  match c.control_char with
  | none => (.error .endpointUnavailable, [])
  | some _ =>
    let bytes := command.to_bytes
    match writeRes with
    | .error _ => (.error .writeFail, [bytes])
    | .ok _ => (.ok (), [bytes])

/-- `TOLERANCE_MM` in `move_to_height`. -/
def TOLERANCE_MM : Nat := 5

/-- `MAX_WAIT_SECS` in `move_to_height`. -/
def MAX_WAIT_SECS : Nat := 30

/-- `POLL_INTERVAL_MS` in `move_to_height` (the fixed 200 ms cadence; it
shapes the wall clock but not the loop's branching, so it appears here
only as the constant). -/
def POLL_INTERVAL_MS : Nat := 200

/-- One iteration's worth of environment for the poll loop: the value of
`start.elapsed().as_secs()` at the top of the iteration (whole elapsed
seconds, truncated), and the outcome of the height-characteristic read. -/
structure PollObs where
  elapsedSecs : Nat
  read : Except Unit (List Nat)

/-- The absolute difference computed in the poll loop:
`if current > height_mm { current - height_mm } else { height_mm - current }`. -/
def heightDiff (current height_mm : Nat) : Nat :=
  if height_mm < current then current - height_mm else height_mm - current

/-- Result of the poll loop, tagged with the value of `poll_count` at the
deciding iteration.  `pending` means the supplied observation trace ended
before the loop decided (the real loop would keep polling). -/
inductive PollResult where
  | success : Nat → PollResult
  | timeoutErr : Nat → PollResult
  | readAbort : Nat → HeightErr → PollResult
  | pending : PollResult
deriving DecidableEq, Repr

/-- The polling loop of `move_to_height`: each iteration increments
`poll_count`, fails with the convergence timeout once the elapsed whole
seconds exceed `MAX_WAIT_SECS`, otherwise reads the height; a successful
read within `TOLERANCE_MM` of the target breaks with success, a failed
read aborts when `poll_count > 5` and is otherwise ignored. -/
def pollLoop (c : DeskController) (height_mm : Nat) :
    List PollObs → Nat → PollResult
  | [], _ => .pending
  | obs :: rest, poll_count =>
    let pc := poll_count + 1
    if MAX_WAIT_SECS < obs.elapsedSecs then
      .timeoutErr pc
    else
      match get_height c obs.read with
      | .ok current =>
        if heightDiff current height_mm ≤ TOLERANCE_MM then .success pc
        else pollLoop c height_mm rest pc
      | .error e =>
        if 5 < pc then .readAbort pc e
        else pollLoop c height_mm rest pc

/-- Result of `move_to_height`: either the initial command write failed,
or the poll loop decided. -/
inductive MoveResult where
  | sendFail : CmdErr → MoveResult
  | poll : PollResult → MoveResult
deriving DecidableEq, Repr

/-- Observable outcome of a `move_to_height` run: the result and the byte
strings written to the control characteristic during the whole run. -/
structure MoveOutcome where
  result : MoveResult
  writes : List (List Nat)
deriving DecidableEq, Repr

/-- `DeskController::move_to_height`: convert the target to wire units,
send one `MoveToHeight` command, wait the 100 ms settle delay, then run
the poll loop with `poll_count` starting at 0.  The poll loop issues no
writes, so the write log is exactly `send_command`'s. -/
def move_to_height (c : DeskController) (height_mm : Nat)
    (writeRes : Except Unit Unit) (trace : List PollObs) : MoveOutcome :=
  let height_units := mm_to_desk_units height_mm
  let sent := send_command c (.MoveToHeight height_units) writeRes
  match sent.1 with
  | .error e => { result := .sendFail e, writes := sent.2 }
  | .ok _ => { result := .poll (pollLoop c height_mm trace 0), writes := sent.2 }

/-! ## Concrete environments used by counterexamples and witnesses -/

/-- A peripheral advertising a desk-like name. -/
def deskPeriph : Peripheral :=
  { props := .ok (some { address := "AA:BB:CC:DD:EE:FF", local_name := some "Desk 123" }) }

/-- A transport attempt that always fails to link. -/
def linkFailAttempt : AttemptEnv :=
  { check := .ok false, link := .transportErr, discover := .ok, chars := [] }

/-- A transport attempt that links and discovers services, but exposes
only the height characteristic (a reachable device that is not a
recognized desk controller). -/
def wrongDeviceAttempt : AttemptEnv :=
  { check := .ok true, link := .ok, discover := .ok,
    chars := [HEIGHT_CHARACTERISTIC_UUID] }

/-- A transport attempt that succeeds outright, exposing both required
characteristics. -/
def goodAttempt : AttemptEnv :=
  { check := .ok false, link := .ok, discover := .ok,
    chars := [CONTROL_CHARACTERISTIC_UUID, HEIGHT_CHARACTERISTIC_UUID] }

/-- An environment whose transport never manages to link. -/
def envNeverLinks : Env :=
  { hasAdapter := true, observed := [deskPeriph], attempts := fun _ => linkFailAttempt }

/-- An environment whose device always lacks the control characteristic. -/
def envWrongDevice : Env :=
  { hasAdapter := true, observed := [deskPeriph], attempts := fun _ => wrongDeviceAttempt }

/-- An environment that connects successfully on the first attempt. -/
def envGood : Env :=
  { hasAdapter := true, observed := [deskPeriph], attempts := fun _ => goodAttempt }

/-- The session produced by a successful run against `envGood`. -/
def goodController : DeskController :=
  { control_char := some CONTROL_CHARACTERISTIC_UUID,
    height_char := some HEIGHT_CHARACTERISTIC_UUID }

/-- A poll observation: reading succeeds with the given two-byte
little-endian payload, at the given elapsed whole seconds. -/
def okObs (elapsed : Nat) (b0 b1 : Nat) : PollObs :=
  { elapsedSecs := elapsed, read := .ok [b0, b1] }

/-- A poll observation whose height read fails. -/
def errObs (elapsed : Nat) : PollObs :=
  { elapsedSecs := elapsed, read := .error () }

/-- A transport attempt that times out while linking. -/
def linkTimeoutAttempt : AttemptEnv :=
  { check := .ok false, link := .timeout, discover := .ok, chars := [] }

/-- An environment that times out on the first link attempt and hits a
transport error on every later one. -/
def envFlaky : Env :=
  { hasAdapter := true, observed := [deskPeriph],
    attempts := fun i => if i = 0 then linkTimeoutAttempt else linkFailAttempt }

/-- Five successful far-from-target reads (desk stuck at 0 mm, target
1000 mm), then a single failed read on poll 6. -/
def traceLateFailure : List PollObs :=
  [okObs 0 0x00 0x00, okObs 0 0x00 0x00, okObs 1 0x00 0x00,
   okObs 1 0x00 0x00, okObs 2 0x00 0x00, errObs 2]

/-- Five consecutive failed reads, then a successful in-tolerance read
(10000 units = 1000 mm) on poll 6. -/
def traceEarlyFailures : List PollObs :=
  [errObs 0, errObs 0, errObs 1, errObs 1, errObs 2, okObs 2 0x10 0x27]

/-! ## Claims about the codec -/

/-- C5: for every `mm` in `[0, 6553]`, converting millimeters to wire units
and back is the identity: `desk_units_to_mm (mm_to_desk_units mm) = mm`. -/
theorem round_trip_mm_units (mm : Nat) (h : mm ≤ 6553) :
    desk_units_to_mm (mm_to_desk_units mm) = mm := by
  unfold desk_units_to_mm mm_to_desk_units
  omega

/-- Witness for C5 at `mm = 1050`. -/
theorem round_trip_mm_units_witness :
    1050 ≤ 6553 ∧ desk_units_to_mm (mm_to_desk_units 1050) = 1050 :=
  ⟨by decide, round_trip_mm_units 1050 (by decide)⟩

/-- C6: command encoding is deterministic with fixed-size output:
`Stop ↦ [0xFF, 0x00]`, `Up ↦ [0x47, 0x00]`, `Down ↦ [0x46, 0x00]`, and for
every 16-bit `u`, `MoveToHeight u ↦ [0x05, u % 256, u / 256]` (the two
bytes of `u` in little-endian order). -/
theorem encode_commands :
    MovementCommand.to_bytes .Stop = [0xFF, 0x00] ∧
    MovementCommand.to_bytes .Up = [0x47, 0x00] ∧
    MovementCommand.to_bytes .Down = [0x46, 0x00] ∧
    ∀ u : Nat, u < 65536 →
      MovementCommand.to_bytes (.MoveToHeight u) = [0x05, u % 256, u / 256] := by
  refine ⟨rfl, rfl, rfl, fun u hu => ?_⟩
  simp only [MovementCommand.to_bytes, u16_lo, u16_hi]
  have : u / 256 % 256 = u / 256 := Nat.mod_eq_of_lt (by omega)
  rw [this]

/-- Witness for C6 at `u = 10500` (`encode(MoveToHeight(10500)) = [0x05, 0x04, 0x29]`). -/
theorem encode_commands_witness :
    MovementCommand.to_bytes (.MoveToHeight 10500) = [0x05, 0x04, 0x29] :=
  encode_commands.2.2.2 10500 (by decide)

/-- C7: `parse_height` returns a value exactly on inputs with at least two
bytes; the value is the little-endian 16-bit integer formed from the first
two bytes, trailing bytes never affect the result, and shorter inputs
yield `none`. -/
theorem parse_height_spec :
    (∀ b0 b1 : Nat, ∀ rest : List Nat,
        parse_height (b0 :: b1 :: rest) = some (b0 + 256 * b1)) ∧
    (∀ data : List Nat, data.length < 2 → parse_height data = none) := by
  constructor
  · intro b0 b1 rest
    simp [parse_height, u16_from_le_bytes]
  · intro data hlen
    unfold parse_height
    rw [if_neg (by omega)]

/-- Witness for C7: a three-byte input decodes to 10500 from its first two
bytes, and a one-byte input yields no value. -/
theorem parse_height_spec_witness :
    parse_height [0x04, 0x29, 0x99] = some 10500 ∧ parse_height [0x04] = none :=
  ⟨parse_height_spec.1 0x04 0x29 [0x99], parse_height_spec.2 [0x04] (by decide)⟩

/-! ## Claims about discovery -/

/-- The scan loop is exactly an order-preserving filter by `deskPred`. -/
theorem collectDesks_eq_filter (observed : List Peripheral) :
    collectDesks observed = observed.filter deskPred := by
  induction observed with
  | nil => rfl
  | cons p rest ih =>
    cases hp : p.props with
    | error e => simp [collectDesks, List.filter, deskPred, hp, ih]
    | ok v =>
      cases v with
      | none => simp [collectDesks, List.filter, deskPred, hp, ih]
      | some props =>
        cases hn : props.local_name with
        | none => simp [collectDesks, List.filter, deskPred, hp, hn, ih]
        | some name =>
          by_cases hd : is_desk_name name = true <;>
            simp [collectDesks, List.filter, deskPred, hp, hn, hd, ih]

/-- C9: discovery returns exactly the observed devices whose advertised
name case-insensitively contains a vendor keyword ("desk", "dpg",
"linak"), in discovery order; devices without a usable advertised name are
dropped, and the (possibly empty) list is an `ok` value, not an error. -/
theorem scan_returns_filtered (timeout_secs : Nat) (observed : List Peripheral) :
    scan_for_desks true timeout_secs observed = .ok (observed.filter deskPred) := by
  simp [scan_for_desks, collectDesks_eq_filter]

/-! ## Claims about connection establishment -/

/-- A failed attempt carries its error into the next retry iteration. -/
theorem connectLoop_err_step (env : Env) (remaining used : Nat)
    (lastErr : Option ConnErr) (e : ConnErr)
    (h : connect_to_peripheral (env.attempts used) = .error e) :
    connectLoop env (remaining + 1) used lastErr =
      connectLoop env remaining (used + 1) (some e) := by
  simp [connectLoop, h]

/-- A successful attempt returns the session at once. -/
theorem connectLoop_ok_step (env : Env) (remaining used : Nat)
    (lastErr : Option ConnErr) (c : DeskController)
    (h : connect_to_peripheral (env.attempts used) = .ok c) :
    connectLoop env (remaining + 1) used lastErr = (.ok c, used + 1) := by
  simp [connectLoop, h]

/-- When the first three attempts fail, the retry loop surfaces the third
(last) error after exactly three attempts. -/
theorem connectLoop_three_errors (env : Env) (e0 e1 e2 : ConnErr)
    (h0 : connect_to_peripheral (env.attempts 0) = .error e0)
    (h1 : connect_to_peripheral (env.attempts 1) = .error e1)
    (h2 : connect_to_peripheral (env.attempts 2) = .error e2) :
    connectLoop env max_retries 0 none = (.error e2, 3) := by
  show connectLoop env (2 + 1) 0 none = (.error e2, 3)
  rw [connectLoop_err_step env 2 0 none e0 h0]
  show connectLoop env (1 + 1) 1 (some e0) = (.error e2, 3)
  rw [connectLoop_err_step env 1 1 (some e0) e1 h1]
  show connectLoop env (0 + 1) 2 (some e1) = (.error e2, 3)
  rw [connectLoop_err_step env 0 2 (some e1) e2 h2]
  simp [connectLoop]

/-- When the scan finds desks and selection succeeds, `connect` performs
its single scan and then defers entirely to the retry loop. -/
theorem connect_selected_runs_loop (desk_address : Option String) (env : Env)
    (p : Peripheral)
    (hA : env.hasAdapter = true)
    (hne : (collectDesks env.observed).isEmpty = false)
    (hsel : (match desk_address with
             | some addr => find_by_address addr (collectDesks env.observed)
             | none => (collectDesks env.observed).head?) = some p) :
    connect desk_address env =
      { result := (connectLoop env max_retries 0 none).1,
        scansUsed := 1,
        attemptsUsed := (connectLoop env max_retries 0 none).2 } := by
  unfold connect
  simp [scan_for_desks, hA, hne, hsel]

/-- C2 (amended): when `connect_to_peripheral` fails, `connect` retries
only the Connecting-through-DiscoveringServices portion, up to 3 attempts
in total, and does not rescan (the scan runs exactly once, before the
first attempt); when every attempt fails, the last encountered error is
returned. -/
theorem connect_retry_behavior (desk_address : Option String) (env : Env)
    (p : Peripheral) (e0 e1 e2 : ConnErr)
    (hA : env.hasAdapter = true)
    (hne : (collectDesks env.observed).isEmpty = false)
    (hsel : (match desk_address with
             | some addr => find_by_address addr (collectDesks env.observed)
             | none => (collectDesks env.observed).head?) = some p)
    (h0 : connect_to_peripheral (env.attempts 0) = .error e0)
    (h1 : connect_to_peripheral (env.attempts 1) = .error e1)
    (h2 : connect_to_peripheral (env.attempts 2) = .error e2) :
    connect desk_address env =
      { result := .error e2, scansUsed := 1, attemptsUsed := 3 } := by
  rw [connect_selected_runs_loop desk_address env p hA hne hsel,
      connectLoop_three_errors env e0 e1 e2 h0 h1 h2]

/-- Witness for the amended C2: a transport that times out once and then
keeps failing makes `connect` use one scan, three attempts, and return
the last error (the transport error, not the first-attempt timeout). -/
theorem connect_retry_behavior_witness :
    connect none envFlaky =
      { result := .error .connectTransport, scansUsed := 1, attemptsUsed := 3 } :=
  connect_retry_behavior none envFlaky deskPeriph
    .connectTimeout .connectTransport .connectTransport
    rfl rfl rfl rfl rfl rfl

/-- C2 counterexample: with a transport that never links, `connect` makes
3 connection attempts but performs only 1 scan, so the retried unit is
not the whole Scanning-through-DiscoveringServices sequence (which would
take one scan per attempt); the claim's retry scope is wrong for this
code, which rescans never. -/
theorem connect_rescan_counterexample :
    (connect none envNeverLinks).result = .error .connectTransport ∧
    (connect none envNeverLinks).attemptsUsed = 3 ∧
    (connect none envNeverLinks).scansUsed = 1 :=
  ⟨rfl, rfl, rfl⟩

/-- C3 (amended): a missing control or height endpoint during service
discovery is retried like every other `connect_to_peripheral` failure;
`connect` surfaces it only after exhausting all 3 attempts. -/
theorem missing_endpoint_error_retried (desk_address : Option String) (env : Env)
    (p : Peripheral) (e : ConnErr)
    (hA : env.hasAdapter = true)
    (hne : (collectDesks env.observed).isEmpty = false)
    (hsel : (match desk_address with
             | some addr => find_by_address addr (collectDesks env.observed)
             | none => (collectDesks env.observed).head?) = some p)
    (he : e = .missingControl ∨ e = .missingHeight)
    (h0 : connect_to_peripheral (env.attempts 0) = .error e)
    (h1 : connect_to_peripheral (env.attempts 1) = .error e)
    (h2 : connect_to_peripheral (env.attempts 2) = .error e) :
    connect desk_address env =
      { result := .error e, scansUsed := 1, attemptsUsed := 3 } := by
  rw [connect_selected_runs_loop desk_address env p hA hne hsel,
      connectLoop_three_errors env e e e h0 h1 h2]

/-- Witness for the amended C3: against a reachable device that lacks the
control characteristic, `connect` returns the missing-endpoint error
after its 3 attempts. -/
theorem missing_endpoint_error_retried_witness :
    connect none envWrongDevice =
      { result := .error .missingControl, scansUsed := 1, attemptsUsed := 3 } :=
  missing_endpoint_error_retried none envWrongDevice deskPeriph .missingControl
    rfl rfl rfl (Or.inl rfl) rfl rfl rfl

/-- C3 counterexample: when every attempt finds the device but not the
control endpoint, `connect` still makes 3 connection attempts instead of
surfacing the missing-endpoint failure without another attempt — the
failure is retried, contrary to the claim. -/
theorem missing_endpoint_fatal_counterexample :
    (connect none envWrongDevice).result = .error .missingControl ∧
    (connect none envWrongDevice).attemptsUsed = 3 :=
  ⟨rfl, rfl⟩

/-- A successful `connect_to_peripheral` resolves both characteristics. -/
theorem connect_to_peripheral_ok_both (a : AttemptEnv) (c : DeskController)
    (h : connect_to_peripheral a = .ok c) :
    c.control_char.isSome ∧ c.height_char.isSome := by
  simp only [connect_to_peripheral] at h
  cases hc : a.check <;> rw [hc] at h
  case timeout => exact absurd h (by simp)
  case fail => exact absurd h (by simp)
  case ok b =>
    simp only [] at h
    split at h
    · exact absurd h (by simp)
    · split at h
      · exact absurd h (by simp)
      · exact absurd h (by simp)
      · split at h
        · exact absurd h (by simp)
        · split at h
          · exact absurd h (by simp)
          · rename_i hcn hhn
            cases h
            constructor
            · cases hf : a.chars.find? (fun u => u == CONTROL_CHARACTERISTIC_UUID) with
              | none => rw [hf] at hcn; exact absurd rfl hcn
              | some v => simp [hf]
            · cases hf : a.chars.find? (fun u => u == HEIGHT_CHARACTERISTIC_UUID) with
              | none => rw [hf] at hhn; exact absurd rfl hhn
              | some v => simp [hf]

/-- Any session the retry loop returns came from a successful
`connect_to_peripheral` on some attempt. -/
theorem connectLoop_ok_attempt (env : Env) :
    ∀ (n used : Nat) (lastErr : Option ConnErr) (c : DeskController) (k : Nat),
      connectLoop env n used lastErr = (.ok c, k) →
      ∃ i, connect_to_peripheral (env.attempts i) = .ok c := by
  intro n
  induction n with
  | zero =>
    intro used lastErr c k h
    simp [connectLoop] at h
  | succ m ih =>
    intro used lastErr c k h
    cases hc : connect_to_peripheral (env.attempts used) with
    | ok c' =>
      rw [connectLoop_ok_step env m used lastErr c' hc] at h
      obtain ⟨h1, h2⟩ := Prod.mk.injEq .. ▸ h
      exact ⟨used, by rw [hc, h1]⟩
    | error e =>
      rw [connectLoop_err_step env m used lastErr e hc] at h
      exact ih (used + 1) (some e) c k h

/-- Any session `connect` returns came from a successful
`connect_to_peripheral`. -/
theorem connect_ok_attempt (desk_address : Option String) (env : Env)
    (ctrl : DeskController)
    (h : (connect desk_address env).result = .ok ctrl) :
    ∃ i, connect_to_peripheral (env.attempts i) = .ok ctrl := by
  unfold connect scan_for_desks at h
  try simp only [] at h
  repeat' split at h
  all_goals try simp only [] at h
  all_goals
    first
    | exact absurd h (by simp)
    | (have h' : (connectLoop env max_retries 0 none).1 = .ok ctrl := h;
       have hpair : connectLoop env max_retries 0 none =
           (.ok ctrl, (connectLoop env max_retries 0 none).2) := by rw [← h'];
       exact connectLoop_ok_attempt env max_retries 0 none ctrl
         (connectLoop env max_retries 0 none).2 hpair)

/-- C4: every session `connect` returns has both the control and the
height endpoint resolved, so the defensive `EndpointUnavailable` branches
in `get_height` and `send_command` are unreachable for such sessions. -/
theorem session_endpoints_resolved (desk_address : Option String) (env : Env)
    (ctrl : DeskController)
    (h : (connect desk_address env).result = .ok ctrl) :
    ctrl.control_char.isSome ∧ ctrl.height_char.isSome ∧
    (∀ readRes, get_height ctrl readRes ≠ .error .endpointUnavailable) ∧
    (∀ command writeRes,
      (send_command ctrl command writeRes).1 ≠ .error .endpointUnavailable) := by
  obtain ⟨i, hi⟩ := connect_ok_attempt desk_address env ctrl h
  obtain ⟨hcs, hhs⟩ := connect_to_peripheral_ok_both (env.attempts i) ctrl hi
  refine ⟨hcs, hhs, ?_, ?_⟩
  · intro readRes
    rcases Option.isSome_iff_exists.mp hhs with ⟨v, hv⟩
    cases readRes with
    | error u => simp [get_height, hv]
    | ok data => cases hp : parse_height data <;> simp [get_height, hv, hp]
  · intro command writeRes
    rcases Option.isSome_iff_exists.mp hcs with ⟨v, hv⟩
    cases writeRes <;> simp [send_command, hv]

/-- Witness for C4: the session produced against `envGood` has both
endpoints and neither accessor can report `endpointUnavailable`. -/
theorem session_endpoints_resolved_witness :
    goodController.control_char.isSome ∧ goodController.height_char.isSome ∧
    get_height goodController (.error ()) ≠ .error .endpointUnavailable ∧
    (send_command goodController .Stop (.ok ())).1 ≠ .error .endpointUnavailable :=
  ⟨(session_endpoints_resolved none envGood goodController rfl).1,
   (session_endpoints_resolved none envGood goodController rfl).2.1,
   (session_endpoints_resolved none envGood goodController rfl).2.2.1 (.error ()),
   (session_endpoints_resolved none envGood goodController rfl).2.2.2 .Stop (.ok ())⟩

/-! ## Claims about the movement controller -/

/-- With a resolved control characteristic, `send_command` with a
successful write returns `ok` and logs exactly the encoded command. -/
theorem send_command_ok_result (c : DeskController) (u : Nat)
    (hu : c.control_char = some u) (command : MovementCommand) :
    send_command c command (.ok ()) = (.ok (), [command.to_bytes]) := by
  simp [send_command, hu]

/-- Poll iterations whose reading succeeds, lands outside the tolerance,
and arrives within the time ceiling neither decide the loop nor reset
anything: the loop just advances `poll_count` past them. -/
theorem pollLoop_skip (c : DeskController) (height_mm : Nat) :
    ∀ (pre rest : List PollObs) (n : Nat),
      (∀ o ∈ pre, o.elapsedSecs ≤ MAX_WAIT_SECS ∧
        ∃ hgt, get_height c o.read = .ok hgt ∧
          TOLERANCE_MM < heightDiff hgt height_mm) →
      pollLoop c height_mm (pre ++ rest) n =
        pollLoop c height_mm rest (n + pre.length) := by
  intro pre
  induction pre with
  | nil =>
    intro rest n hpre
    simp
  | cons o pre' ih =>
    intro rest n hpre
    obtain ⟨hel, hgt, hread, hdiff⟩ := hpre o (by simp)
    have hrest := fun o' ho' => hpre o' (List.mem_cons_of_mem o ho')
    have h30 : ¬ (MAX_WAIT_SECS < o.elapsedSecs) := by omega
    have hd : ¬ (heightDiff hgt height_mm ≤ TOLERANCE_MM) := by omega
    simp only [List.cons_append, pollLoop, hread]
    rw [if_neg h30, if_neg hd]
    simp only [List.append_eq]
    rw [ih rest (n + 1) hrest]
    congr 1
    simp only [List.length_cons]
    omega

/-- C1: after a run of polls whose readings stay outside the 5 mm
tolerance within the 30 s ceiling, `move_to_height` returns success at the
first poll whose reading is within tolerance (and not before), and returns
the convergence-timeout error at the first poll whose elapsed whole
seconds exceed the 30 s ceiling. -/
theorem move_to_height_converges_or_times_out (c : DeskController) (u : Nat)
    (hu : c.control_char = some u) (height_mm : Nat)
    (pre : List PollObs) (obs : PollObs) (rest : List PollObs)
    (hpre : ∀ o ∈ pre, o.elapsedSecs ≤ MAX_WAIT_SECS ∧
      ∃ hgt, get_height c o.read = .ok hgt ∧
        TOLERANCE_MM < heightDiff hgt height_mm) :
    (∀ hgt, obs.elapsedSecs ≤ MAX_WAIT_SECS →
      get_height c obs.read = .ok hgt →
      heightDiff hgt height_mm ≤ TOLERANCE_MM →
      move_to_height c height_mm (.ok ()) (pre ++ obs :: rest) =
        { result := .poll (.success (pre.length + 1)),
          writes := [MovementCommand.to_bytes
            (.MoveToHeight (mm_to_desk_units height_mm))] }) ∧
    (MAX_WAIT_SECS < obs.elapsedSecs →
      move_to_height c height_mm (.ok ()) (pre ++ obs :: rest) =
        { result := .poll (.timeoutErr (pre.length + 1)),
          writes := [MovementCommand.to_bytes
            (.MoveToHeight (mm_to_desk_units height_mm))] }) := by
  have hsend := send_command_ok_result c u hu (.MoveToHeight (mm_to_desk_units height_mm))
  constructor
  · intro hgt hel hread hdiff
    have h30 : ¬ (MAX_WAIT_SECS < obs.elapsedSecs) := by omega
    simp only [move_to_height, hsend]
    rw [pollLoop_skip c height_mm pre (obs :: rest) 0 hpre]
    simp only [Nat.zero_add, pollLoop, hread]
    rw [if_neg h30, if_pos hdiff]
  · intro h30
    simp only [move_to_height, hsend]
    rw [pollLoop_skip c height_mm pre (obs :: rest) 0 hpre]
    simp only [Nat.zero_add, pollLoop]
    rw [if_pos h30]

/-- Witness for C1: the desk reports 1050 mm (bytes `[0x04, 0x29]`) on the
first poll toward target 1050 mm, so the move succeeds at poll 1. -/
theorem move_to_height_converges_witness :
    move_to_height goodController 1050 (.ok ()) [okObs 0 0x04 0x29] =
      { result := .poll (.success 1), writes := [[0x05, 0x04, 0x29]] } :=
  (move_to_height_converges_or_times_out goodController CONTROL_CHARACTERISTIC_UUID
      rfl 1050 [] (okObs 0 0x04 0x29) [] (by simp)).1
    1050 (by decide) rfl (by decide)

/-- C8 (amended): during the poll loop a failed height read is tolerated
(the loop keeps polling) only while the total number of polls so far is at
most 5; a failed read at any later poll aborts immediately with the read
error.  The criterion is the total poll count, not a count of consecutive
failures. -/
theorem read_failure_tolerance (c : DeskController) (height_mm : Nat)
    (pre : List PollObs) (obs : PollObs) (rest : List PollObs) (e : HeightErr)
    (hpre : ∀ o ∈ pre, o.elapsedSecs ≤ MAX_WAIT_SECS ∧
      ∃ hgt, get_height c o.read = .ok hgt ∧
        TOLERANCE_MM < heightDiff hgt height_mm)
    (hel : obs.elapsedSecs ≤ MAX_WAIT_SECS)
    (hread : get_height c obs.read = .error e) :
    (5 ≤ pre.length →
      pollLoop c height_mm (pre ++ obs :: rest) 0 =
        .readAbort (pre.length + 1) e) ∧
    (pre.length < 5 →
      pollLoop c height_mm (pre ++ obs :: rest) 0 =
        pollLoop c height_mm rest (pre.length + 1)) := by
  have h30 : ¬ (MAX_WAIT_SECS < obs.elapsedSecs) := by omega
  constructor
  · intro hlen
    rw [pollLoop_skip c height_mm pre (obs :: rest) 0 hpre]
    simp only [Nat.zero_add, pollLoop, hread]
    rw [if_neg h30, if_pos (by omega : 5 < pre.length + 1)]
  · intro hlen
    rw [pollLoop_skip c height_mm pre (obs :: rest) 0 hpre]
    simp only [Nat.zero_add, pollLoop, hread]
    rw [if_neg h30, if_neg (by omega : ¬ 5 < pre.length + 1)]

/-- Witness for the amended C8: a read failure on the very first poll is
tolerated — the loop continues with `poll_count = 1`. -/
theorem read_failure_tolerance_witness :
    pollLoop goodController 1000 [errObs 0] 0 = pollLoop goodController 1000 [] 1 :=
  (read_failure_tolerance goodController 1000 [] (errObs 0) [] .readFail
      (by simp) (by decide) rfl).2 (by decide)

/-- C8 counterexample: the abort criterion is not a bound on consecutive
failures.  After five successful out-of-tolerance polls, a single failed
read (consecutive-failure count 1) aborts the loop at poll 6; yet five
consecutive failed reads at polls 1–5 are all tolerated and the loop can
still succeed at poll 6.  No fixed consecutive-failure bound matches both
behaviours. -/
theorem consecutive_failure_counterexample :
    pollLoop goodController 1000 traceLateFailure 0 = .readAbort 6 .readFail ∧
    pollLoop goodController 1000 traceEarlyFailures 0 = .success 6 :=
  ⟨rfl, rfl⟩

/-- C10: every execution of `move_to_height` on a session with a resolved
control endpoint issues exactly one write — the initial `MoveToHeight`
command — whatever the write outcome and however the poll loop ends; in
particular the `Stop` encoding is never among the issued writes. -/
theorem move_to_height_single_write (c : DeskController) (u : Nat)
    (hu : c.control_char = some u) (height_mm : Nat)
    (writeRes : Except Unit Unit) (trace : List PollObs) :
    (move_to_height c height_mm writeRes trace).writes =
      [MovementCommand.to_bytes (.MoveToHeight (mm_to_desk_units height_mm))] ∧
    MovementCommand.to_bytes .Stop ∉
      (move_to_height c height_mm writeRes trace).writes := by
  have hw : (move_to_height c height_mm writeRes trace).writes =
      [MovementCommand.to_bytes (.MoveToHeight (mm_to_desk_units height_mm))] := by
    cases writeRes <;> simp [move_to_height, send_command, hu]
  refine ⟨hw, ?_⟩
  rw [hw]
  simp [MovementCommand.to_bytes]

/-- Witness for C10: moving to 1050 mm writes exactly
`[0x05, 0x04, 0x29]` once, and no `Stop` bytes. -/
theorem move_to_height_single_write_witness :
    (move_to_height goodController 1050 (.ok ()) []).writes = [[0x05, 0x04, 0x29]] ∧
    MovementCommand.to_bytes .Stop ∉
      (move_to_height goodController 1050 (.ok ()) []).writes :=
  move_to_height_single_write goodController CONTROL_CHARACTERISTIC_UUID rfl
    1050 (.ok ()) []
